import Mathlib

/-!
Shallow embedding of the tile-based game in `game.py`: the `Door` state
machine, the `World` collision query, the `Player` IDLE/WALK state machine
and the `Camera`, together with theorems settling the specification claims.

Rendering (sprite surfaces, blitting) is out of scope; only the state
carried by each class is modelled.  The player's pixel position lives in a
`pygame.Rect`, which stores integer coordinates and truncates assigned
floats toward zero, so it is modelled as `Int` with an explicit truncating
shift (`rectShift`); the float arithmetic itself (`tilesize / 2` and its
sums with integers) is exact, so only that final truncation matters.  The
camera's coordinates are plain Python floats and are modelled as exact
rationals.
-/

/-- The four states of `Door.state` in `game.py` (string-valued there). -/
inductive DoorState
  | CLOSED
  | OPENING
  | OPEN
  | CLOSING
deriving DecidableEq, Repr

/-- A `Door` from `game.py`: `state`, `anim_frame`, and the number of door
sprite frames `nsprites = len(self.sprites)`.  The pixel rect and back
reference to the world carry no door logic and are omitted. -/
structure Door where
  state : DoorState
  anim_frame : Int
  nsprites : Nat
deriving DecidableEq, Repr

/-- `Door.__init__`: a fresh door is CLOSED with `anim_frame = 0`. -/
def Door.init (n : Nat) : Door :=
  { state := .CLOSED, anim_frame := 0, nsprites := n }

/-- `Door.open` (named `open_door` because `open` is a Lean keyword):
CLOSED becomes OPENING with `anim_frame = 0`; any other state is left
unchanged (the Python prints a message and does nothing). -/
def Door.open_door (d : Door) : Door :=
  if d.state = .CLOSED then { d with state := .OPENING, anim_frame := 0 }
  else d

/-- `Door.close`: OPEN becomes CLOSING (the frame is not reset); any other
state is left unchanged. -/
def Door.close (d : Door) : Door :=
  if d.state = .OPEN then { d with state := .CLOSING }
  else d

/-- `Door.toggle`: CLOSED calls `open`, OPEN calls `close`, otherwise a
no-op. -/
def Door.toggle (d : Door) : Door :=
  if d.state = .CLOSED then d.open_door
  else if d.state = .OPEN then d.close
  else d

/-- `Door.is_open`. -/
def Door.is_open (d : Door) : Bool :=
  d.state = .OPEN

/-- `Door.update` (the spec's `advance()`): OPENING increments the frame and
becomes OPEN when the frame reaches `len(sprites) - 1`; CLOSING decrements
and becomes CLOSED when the frame reaches `0`; otherwise a no-op. -/
def Door.update (d : Door) : Door :=
  if d.state = .OPENING then
    let a := d.anim_frame + 1
    if a = (d.nsprites : Int) - 1 then { d with anim_frame := a, state := .OPEN }
    else { d with anim_frame := a }
  else if d.state = .CLOSING then
    let a := d.anim_frame - 1
    if a = 0 then { d with anim_frame := a, state := .CLOSED }
    else { d with anim_frame := a }
  else d

/-- The `World` of `game.py`, restricted to the state the collision query
and the door map use: dimensions, tile size, the `Objects` layer data
(`objects.data[y][x]`, modelled as a function of `y` then `x`), and the
door map keyed by tile coordinate. -/
structure World where
  width : Int
  height : Int
  tilesize : Int
  objects : Int → Int → Int
  doors : Int × Int → Option Door

/-- `World.will_collide`: out of bounds collides; a non-zero object-layer
tile collides; a door that is not OPEN collides; everything else is free. -/
def World.will_collide (w : World) (x y : Int) : Bool :=
  if x < 0 ∨ x ≥ w.width ∨ y < 0 ∨ y ≥ w.height then true
  else if w.objects y x ≠ 0 then true
  else
    match w.doors (x, y) with
    | some d => !d.is_open
    | none => false

/-- `World.update`: advance every door one tick. -/
def World.update (w : World) : World :=
  { w with doors := fun k => (w.doors k).map Door.update }

/-- The direction strings of `game.py`. -/
inductive Dir
  | UP
  | DOWN
  | LEFT
  | RIGHT
deriving DecidableEq, Repr

/-- The two values `Player.state` takes: `'IDLE'` and `'WALK'`. -/
inductive PState
  | IDLE
  | WALK
deriving DecidableEq, Repr

/-- The `Player` of `game.py`: tile position `(x, y)`, motion state,
facing `direction`, `anim_frame`, `speed`, tick counter and the pixel rect
position (integer, as `pygame.Rect` stores it).  `frames d` is
`len(self.sprites[d])`, the per-direction sprite frame count; the sprite
surfaces themselves are out of scope. -/
@[ext]
structure Player where
  x : Int
  y : Int
  state : PState
  direction : Dir
  anim_frame : Nat
  speed : Int
  tick : Nat
  rect_x : Int
  rect_y : Int
  frames : Dir → Nat

/-- `Player.movemap`: the `(dx, dy)` offset for a direction, scaled by
`self.speed`. -/
def Player.movemap (p : Player) (d : Dir) : Int × Int :=
  match d with
  | .UP => (0, -p.speed)
  | .DOWN => (0, p.speed)
  | .LEFT => (-p.speed, 0)
  | .RIGHT => (p.speed, 0)

/-- The spec's unit vector of a facing direction, for comparison with
`Player.movemap` at the source's fixed `speed = 1`. -/
def unitVector : Dir → Int × Int
  | .UP => (0, -1)
  | .DOWN => (0, 1)
  | .LEFT => (-1, 0)
  | .RIGHT => (1, 0)

/-- Conversion of a (here always exactly represented) Python float to an
int, as the C conversion used by `pygame.Rect` attribute assignment does
it: truncation toward zero. -/
def pyInt (q : Rat) : Int :=
  if q < 0 then Int.ceil q else Int.floor q

/-- The effect of `self.rect.x += dx * self.world.tilesize / 2` on the
integer-valued `pygame.Rect` coordinate `r`, with `d = dx * tilesize`:
the float value `r + d / 2` (exact, a half-integer) is truncated toward
zero on assignment. -/
def rectShift (r d : Int) : Int :=
  pyInt ((r : Rat) + (d : Rat) / 2)

/-- The IDLE/WALK part of `Player.update` (everything after the door
check), acting on the player alone.  In IDLE: a keypress matching the
facing walks unless the target tile collides; a different keypress only
turns.  In WALK: odd ticks return immediately; even ticks advance the
animation frame modulo the frame count, commit the tile move and return to
IDLE when the new frame is even, and shift the integer rect by half a
tile, truncated toward zero (`rectShift`). -/
def Player.step (p : Player) (w : World) (a : Option Dir) : Player :=
  if p.state = .IDLE then
    if a = some p.direction then
      let m := p.movemap p.direction
      if w.will_collide (p.x + m.1) (p.y + m.2) then p
      else { p with state := .WALK }
    else
      match a with
      | some d => { p with direction := d }
      | none => p
  else
    if p.tick % 2 ≠ 0 then p
    else
      let m := p.movemap p.direction
      let a2 := (p.anim_frame + 1) % p.frames p.direction
      let p2 :=
        if a2 % 2 = 0 then
          { p with anim_frame := a2, x := p.x + m.1, y := p.y + m.2, state := .IDLE }
        else
          { p with anim_frame := a2 }
      { p2 with rect_x := rectShift p2.rect_x (m.1 * w.tilesize),
                rect_y := rectShift p2.rect_y (m.2 * w.tilesize) }

/-- `Player.update`: one tick.  The tick counter is incremented first.
If the tile one step ahead in the facing direction holds a door and the
interact key (`SPACE`, here `s`) is down, the door is toggled and the tick
ends there; otherwise the IDLE/WALK machine `Player.step` runs.  The
result pairs the updated player with the (possibly updated) door map.
The forward offset is read from `p`, which only differs from the
post-increment player in `tick`, a field `movemap` and the position do
not involve. -/
def Player.update (p : Player) (w : World) (a : Option Dir) (s : Bool) :
    Player × (Int × Int → Option Door) :=
  let p1 := { p with tick := p.tick + 1 }
  let m := p.movemap p.direction
  let fwd := (p.x + m.1, p.y + m.2)
  match w.doors fwd with
  | some d =>
    if s then
      (p1, fun k => if k = fwd then some d.toggle else w.doors k)
    else
      (p1.step w a, w.doors)
  | none => (p1.step w a, w.doors)

/-- The `Camera` of `game.py`, restricted to its own state: viewport pixel
size `(vw, vh)` and pixel position `(x, y)`. -/
structure Camera where
  vw : Rat
  vh : Rat
  x : Rat
  y : Rat
deriving DecidableEq, Repr

/-- `Camera.update`: recentre on the player's pixel rect position
`(prx, pry)`; the clamping lines of the source are commented out, so the
result is the bare offset formula. -/
def Camera.update (c : Camera) (prx pry : Rat) : Camera :=
  { c with x := prx - c.vw * (1 / 2), y := pry - c.vh * (1 / 2) }

/-- The four calls a client can make on a `Door`. -/
inductive DoorOp
  | op_open
  | op_close
  | op_toggle
  | op_advance
deriving DecidableEq, Repr

/-- Apply one door call. -/
def DoorOp.apply : DoorOp → Door → Door
  | .op_open, d => d.open_door
  | .op_close, d => d.close
  | .op_toggle, d => d.toggle
  | .op_advance, d => d.update

/-- Run a sequence of door calls from left to right. -/
def Door.run (d : Door) (ops : List DoorOp) : Door :=
  ops.foldl (fun d op => op.apply d) d

/-- The door invariant: the frame count is `n`, `anim_frame` stays within
`[0, n - 1]`, CLOSED pins the frame to 0, OPEN pins it to `n - 1`, OPENING
keeps it at most `n - 2` and CLOSING keeps it at least 1. -/
def Door.inv (n : Nat) (d : Door) : Prop :=
  d.nsprites = n ∧
  0 ≤ d.anim_frame ∧
  d.anim_frame ≤ (n : Int) - 1 ∧
  (d.state = .CLOSED → d.anim_frame = 0) ∧
  (d.state = .OPEN → d.anim_frame = (n : Int) - 1) ∧
  (d.state = .OPENING → d.anim_frame ≤ (n : Int) - 2) ∧
  (d.state = .CLOSING → 1 ≤ d.anim_frame)

/-- An empty 5 × 5 world: no objects, no doors, 16-pixel tiles. -/
def w0 : World :=
  { width := 5, height := 5, tilesize := 16,
    objects := fun _ _ => 0, doors := fun _ => none }

/-- A world identical to `w0` except every object tile is occupied. -/
def w0b : World :=
  { width := 5, height := 5, tilesize := 16,
    objects := fun _ _ => 1, doors := fun _ => none }

/-- A world identical to `w0` except a CLOSED door sits at tile (0, 1). -/
def w0d : World :=
  { width := 5, height := 5, tilesize := 16,
    objects := fun _ _ => 0,
    doors := fun k => if k = (0, 1) then some (Door.init 4) else none }

/-- An idle player at tile (0, 0) facing DOWN with `anim_frame = 2`
(the standing frame a completed walk cycle leaves behind), 4 sprite
frames per direction. -/
def p0 : Player :=
  { x := 0, y := 0, state := .IDLE, direction := .DOWN, anim_frame := 2,
    speed := 1, tick := 0, rect_x := 0, rect_y := 0, frames := fun _ => 4 }

/-- A walking player: mid-walk at tile (0, 0) facing DOWN, `anim_frame`
0, on an odd tick so the next update makes progress. -/
def pw : Player :=
  { x := 0, y := 0, state := .WALK, direction := .DOWN, anim_frame := 0,
    speed := 1, tick := 1, rect_x := 0, rect_y := 0, frames := fun _ => 4 }

/-- An empty 5 × 5 world with an odd tile size of 7 pixels. -/
def wodd : World :=
  { width := 5, height := 5, tilesize := 7,
    objects := fun _ _ => 0, doors := fun _ => none }

/-- C1: `will_collide (x, y)` returns true exactly when `(x, y)` is outside
`[0, width) × [0, height)`, or the object-layer tile-id at `(x, y)` is
non-zero, or a door exists at `(x, y)` whose state is not OPEN (so doors in
OPENING or CLOSING block movement); otherwise it returns false. -/
theorem will_collide_iff (w : World) (x y : Int) :
    w.will_collide x y = true ↔
      ((x < 0 ∨ x ≥ w.width ∨ y < 0 ∨ y ≥ w.height) ∨
        w.objects y x ≠ 0 ∨
        (∃ d, w.doors (x, y) = some d ∧ d.state ≠ DoorState.OPEN)) := by
  unfold World.will_collide
  split
  · simp_all
  · split
    · simp_all
    · cases hd : w.doors (x, y) with
      | none => simp_all
      | some d => simp_all [Door.is_open]

/-- C7: calling `open` on a door whose state is not CLOSED leaves the door
entirely unchanged (state and `anim_frame` included). -/
theorem open_door_noop (d : Door) (h : d.state ≠ DoorState.CLOSED) :
    d.open_door = d := by
  unfold Door.open_door
  simp [h]

/-- Witness for C7: an OPEN door at frame 3 is unchanged by `open`. -/
theorem open_door_noop_witness :
    (⟨.OPEN, 3, 4⟩ : Door).state ≠ DoorState.CLOSED ∧
      Door.open_door ⟨.OPEN, 3, 4⟩ = ⟨.OPEN, 3, 4⟩ :=
  ⟨by decide, open_door_noop ⟨.OPEN, 3, 4⟩ (by decide)⟩

/-- C8: `Camera.update` sets the camera pixel position to the actor pixel
position minus half the viewport pixel size, with no clamping; in
particular the coordinates can be negative, as the concrete instance in
the last conjunct shows. -/
theorem camera_update_unclamped (c : Camera) (prx pry : Rat) :
    (c.update prx pry).x = prx - c.vw / 2 ∧
      (c.update prx pry).y = pry - c.vh / 2 ∧
      (c.update prx pry).vw = c.vw ∧
      (c.update prx pry).vh = c.vh ∧
      (Camera.update ⟨160, 120, 0, 0⟩ 0 0).x < 0 ∧
      (Camera.update ⟨160, 120, 0, 0⟩ 0 0).y < 0 := by
  refine ⟨?_, ?_, rfl, rfl, by norm_num [Camera.update], by norm_num [Camera.update]⟩
  · show prx - c.vw * (1 / 2) = prx - c.vw / 2
    ring
  · show pry - c.vh * (1 / 2) = pry - c.vh / 2
    ring

/-- An OPENING door at frame `j` reaches OPEN at frame `n - 1` after
exactly `k + 1` updates when `j + (k + 1) = n - 1`. -/
theorem door_opening_steps (k : Nat) : ∀ j n : Nat, j + k + 2 = n →
    Door.update^[k + 1] ⟨.OPENING, (j : Int), n⟩ = ⟨.OPEN, (n : Int) - 1, n⟩ := by
  induction k with
  | zero =>
    intro j n h
    have hj : (j : Int) + 1 = (n : Int) - 1 := by omega
    simp [Function.iterate_one, Door.update, hj]
  | succ m ih =>
    intro j n h
    rw [Function.iterate_succ_apply]
    have hne : ¬((j : Int) + 1 = (n : Int) - 1) := by omega
    have h1 : Door.update ⟨.OPENING, (j : Int), n⟩ = ⟨.OPENING, ((j + 1 : Nat) : Int), n⟩ := by
      simp [Door.update, hne]
    rw [h1]
    exact ih (j + 1) n (by omega)

/-- A CLOSING door at frame `k + 1` reaches CLOSED at frame `0` after
exactly `k + 1` updates. -/
theorem door_closing_steps (k : Nat) : ∀ n : Nat,
    Door.update^[k + 1] ⟨.CLOSING, (k : Int) + 1, n⟩ = ⟨.CLOSED, 0, n⟩ := by
  induction k with
  | zero =>
    intro n
    simp [Function.iterate_one, Door.update]
  | succ m ih =>
    intro n
    rw [Function.iterate_succ_apply]
    have h1 : Door.update ⟨.CLOSING, ((m + 1 : Nat) : Int) + 1, n⟩
        = ⟨.CLOSING, ((m : Nat) : Int) + 1, n⟩ := by
      have hne : ¬(((m + 1 : Nat) : Int) + 1 - 1 = 0) := by push_cast; omega
      simp [Door.update, hne]
      omega
    rw [h1]
    exact ih n

/-- C2: a fresh door is CLOSED at frame 0; `toggle` then `N - 1` updates
drives it to OPEN at frame `N - 1`; one more `toggle` then `N - 1` updates
returns it exactly to the fresh door (round-trip), for any frame count
`N ≥ 2`. -/
theorem door_round_trip (n : Nat) (hn : 2 ≤ n) :
    Door.init n = ⟨.CLOSED, 0, n⟩ ∧
      Door.update^[n - 1] (Door.init n).toggle = ⟨.OPEN, (n : Int) - 1, n⟩ ∧
      Door.update^[n - 1] ((⟨.OPEN, (n : Int) - 1, n⟩ : Door).toggle) = Door.init n := by
  refine ⟨rfl, ?_, ?_⟩
  · have h1 : (Door.init n).toggle = ⟨.OPENING, 0, n⟩ := by
      simp [Door.init, Door.toggle, Door.open_door]
    rw [h1]
    have hk : n - 1 = (n - 2) + 1 := by omega
    rw [hk]
    have h2 := door_opening_steps (n - 2) 0 n (by omega)
    simpa using h2
  · have h1 : (⟨.OPEN, (n : Int) - 1, n⟩ : Door).toggle = ⟨.CLOSING, (n : Int) - 1, n⟩ := by
      simp [Door.toggle, Door.close]
    rw [h1]
    have hk : n - 1 = (n - 2) + 1 := by omega
    have hc : (n : Int) - 1 = ((n - 2 : Nat) : Int) + 1 := by omega
    rw [hk, hc, door_closing_steps (n - 2) n]
    rfl

/-- The invariant spelled out on an explicit door record. -/
theorem door_inv_mk (n : Nat) (st : DoorState) (a : Int) (ns : Nat) :
    Door.inv n ⟨st, a, ns⟩ ↔
      (ns = n ∧ 0 ≤ a ∧ a ≤ (n : Int) - 1 ∧
        (st = .CLOSED → a = 0) ∧ (st = .OPEN → a = (n : Int) - 1) ∧
        (st = .OPENING → a ≤ (n : Int) - 2) ∧ (st = .CLOSING → 1 ≤ a)) := by
  rfl

/-- `open` preserves the door invariant. -/
theorem door_inv_open (n : Nat) (hn : 2 ≤ n) (d : Door) (h : Door.inv n d) :
    Door.inv n d.open_door := by
  rcases d with ⟨st, a, ns⟩
  rw [door_inv_mk] at h
  obtain ⟨h1, h2, h3, h4, h5, h6, h7⟩ := h
  cases st with
  | CLOSED =>
    have he : Door.open_door ⟨.CLOSED, a, ns⟩ = ⟨.OPENING, 0, ns⟩ := by
      simp [Door.open_door]
    rw [he, door_inv_mk]
    refine ⟨h1, ?_, ?_, ?_, ?_, ?_, ?_⟩ <;> simp_all <;> omega
  | OPENING =>
    have he : Door.open_door ⟨.OPENING, a, ns⟩ = ⟨.OPENING, a, ns⟩ := by
      simp [Door.open_door]
    rw [he, door_inv_mk]
    exact ⟨h1, h2, h3, h4, h5, h6, h7⟩
  | OPEN =>
    have he : Door.open_door ⟨.OPEN, a, ns⟩ = ⟨.OPEN, a, ns⟩ := by
      simp [Door.open_door]
    rw [he, door_inv_mk]
    exact ⟨h1, h2, h3, h4, h5, h6, h7⟩
  | CLOSING =>
    have he : Door.open_door ⟨.CLOSING, a, ns⟩ = ⟨.CLOSING, a, ns⟩ := by
      simp [Door.open_door]
    rw [he, door_inv_mk]
    exact ⟨h1, h2, h3, h4, h5, h6, h7⟩

/-- `close` preserves the door invariant. -/
theorem door_inv_close (n : Nat) (hn : 2 ≤ n) (d : Door) (h : Door.inv n d) :
    Door.inv n d.close := by
  rcases d with ⟨st, a, ns⟩
  rw [door_inv_mk] at h
  obtain ⟨h1, h2, h3, h4, h5, h6, h7⟩ := h
  cases st with
  | OPEN =>
    have he : Door.close ⟨.OPEN, a, ns⟩ = ⟨.CLOSING, a, ns⟩ := by
      simp [Door.close]
    rw [he, door_inv_mk]
    refine ⟨h1, ?_, ?_, ?_, ?_, ?_, ?_⟩ <;> simp_all <;> omega
  | CLOSED =>
    have he : Door.close ⟨.CLOSED, a, ns⟩ = ⟨.CLOSED, a, ns⟩ := by
      simp [Door.close]
    rw [he, door_inv_mk]
    exact ⟨h1, h2, h3, h4, h5, h6, h7⟩
  | OPENING =>
    have he : Door.close ⟨.OPENING, a, ns⟩ = ⟨.OPENING, a, ns⟩ := by
      simp [Door.close]
    rw [he, door_inv_mk]
    exact ⟨h1, h2, h3, h4, h5, h6, h7⟩
  | CLOSING =>
    have he : Door.close ⟨.CLOSING, a, ns⟩ = ⟨.CLOSING, a, ns⟩ := by
      simp [Door.close]
    rw [he, door_inv_mk]
    exact ⟨h1, h2, h3, h4, h5, h6, h7⟩

/-- `toggle` preserves the door invariant. -/
theorem door_inv_toggle (n : Nat) (hn : 2 ≤ n) (d : Door) (h : Door.inv n d) :
    Door.inv n d.toggle := by
  unfold Door.toggle
  split
  · exact door_inv_open n hn d h
  · split
    · exact door_inv_close n hn d h
    · exact h

/-- `update` preserves the door invariant. -/
theorem door_inv_update (n : Nat) (hn : 2 ≤ n) (d : Door) (h : Door.inv n d) :
    Door.inv n d.update := by
  rcases d with ⟨st, a, ns⟩
  rw [door_inv_mk] at h
  obtain ⟨h1, h2, h3, h4, h5, h6, h7⟩ := h
  cases st with
  | OPENING =>
    have ha := h6 rfl
    by_cases he : a + 1 = (ns : Int) - 1
    · have hu : Door.update ⟨.OPENING, a, ns⟩ = ⟨.OPEN, a + 1, ns⟩ := by
        simp [Door.update, he]
      rw [hu, door_inv_mk]
      refine ⟨h1, ?_, ?_, ?_, ?_, ?_, ?_⟩ <;> simp_all <;> omega
    · have hu : Door.update ⟨.OPENING, a, ns⟩ = ⟨.OPENING, a + 1, ns⟩ := by
        simp [Door.update, he]
      rw [hu, door_inv_mk]
      refine ⟨h1, ?_, ?_, ?_, ?_, ?_, ?_⟩ <;> simp_all <;> omega
  | CLOSING =>
    have ha := h7 rfl
    by_cases he : a - 1 = 0
    · have hu : Door.update ⟨.CLOSING, a, ns⟩ = ⟨.CLOSED, a - 1, ns⟩ := by
        simp [Door.update, he]
      rw [hu, door_inv_mk]
      refine ⟨h1, ?_, ?_, ?_, ?_, ?_, ?_⟩ <;> simp_all <;> omega
    · have hu : Door.update ⟨.CLOSING, a, ns⟩ = ⟨.CLOSING, a - 1, ns⟩ := by
        simp [Door.update, he]
      rw [hu, door_inv_mk]
      refine ⟨h1, ?_, ?_, ?_, ?_, ?_, ?_⟩ <;> simp_all <;> omega
  | CLOSED =>
    have hu : Door.update ⟨.CLOSED, a, ns⟩ = ⟨.CLOSED, a, ns⟩ := by
      simp [Door.update]
    rw [hu, door_inv_mk]
    exact ⟨h1, h2, h3, h4, h5, h6, h7⟩
  | OPEN =>
    have hu : Door.update ⟨.OPEN, a, ns⟩ = ⟨.OPEN, a, ns⟩ := by
      simp [Door.update]
    rw [hu, door_inv_mk]
    exact ⟨h1, h2, h3, h4, h5, h6, h7⟩

/-- Any run of door calls preserves the invariant. -/
theorem door_inv_run (n : Nat) (hn : 2 ≤ n) (ops : List DoorOp) :
    ∀ d : Door, Door.inv n d → Door.inv n (d.run ops) := by
  induction ops with
  | nil => intro d h; exact h
  | cons op rest ih =>
    intro d h
    have h1 : Door.inv n (op.apply d) := by
      cases op
      · exact door_inv_open n hn d h
      · exact door_inv_close n hn d h
      · exact door_inv_toggle n hn d h
      · exact door_inv_update n hn d h
    exact ih (op.apply d) h1

/-- C9: every door reachable from the fresh door (CLOSED, frame 0) by any
sequence of `open`, `close`, `toggle` and `update` calls keeps
`anim_frame` within `[0, N - 1]`, with frame 0 whenever CLOSED and frame
`N - 1` whenever OPEN, for any frame count `N ≥ 2`. -/
theorem door_anim_invariant (n : Nat) (hn : 2 ≤ n) (ops : List DoorOp) :
    0 ≤ ((Door.init n).run ops).anim_frame ∧
      ((Door.init n).run ops).anim_frame ≤ (n : Int) - 1 ∧
      (((Door.init n).run ops).state = DoorState.CLOSED →
        ((Door.init n).run ops).anim_frame = 0) ∧
      (((Door.init n).run ops).state = DoorState.OPEN →
        ((Door.init n).run ops).anim_frame = (n : Int) - 1) := by
  have h0 : Door.inv n (Door.init n) := by
    rw [show Door.init n = ⟨.CLOSED, 0, n⟩ from rfl, door_inv_mk]
    refine ⟨rfl, ?_, ?_, ?_, ?_, ?_, ?_⟩ <;> simp_all <;> omega
  have h := door_inv_run n hn ops (Door.init n) h0
  exact ⟨h.2.1, h.2.2.1, h.2.2.2.1, h.2.2.2.2.1⟩

/-- Witness for C9 at `N = 4` with a concrete call sequence. -/
theorem door_anim_invariant_witness :
    0 ≤ ((Door.init 4).run
        [.op_toggle, .op_advance, .op_advance, .op_toggle, .op_advance]).anim_frame ∧
      ((Door.init 4).run
        [.op_toggle, .op_advance, .op_advance, .op_toggle, .op_advance]).anim_frame
        ≤ ((4 : Nat) : Int) - 1 ∧
      (((Door.init 4).run
        [.op_toggle, .op_advance, .op_advance, .op_toggle, .op_advance]).state
          = DoorState.CLOSED →
        ((Door.init 4).run
        [.op_toggle, .op_advance, .op_advance, .op_toggle, .op_advance]).anim_frame = 0) ∧
      (((Door.init 4).run
        [.op_toggle, .op_advance, .op_advance, .op_toggle, .op_advance]).state
          = DoorState.OPEN →
        ((Door.init 4).run
        [.op_toggle, .op_advance, .op_advance, .op_toggle, .op_advance]).anim_frame
          = ((4 : Nat) : Int) - 1) :=
  door_anim_invariant 4 (by decide)
    [.op_toggle, .op_advance, .op_advance, .op_toggle, .op_advance]

/-- Witness for C2 at the repository's door frame count `N = 4`. -/
theorem door_round_trip_witness :
    2 ≤ 4 ∧
      (Door.init 4 = ⟨.CLOSED, 0, 4⟩ ∧
        Door.update^[4 - 1] (Door.init 4).toggle = ⟨.OPEN, ((4 : Nat) : Int) - 1, 4⟩ ∧
        Door.update^[4 - 1] ((⟨.OPEN, ((4 : Nat) : Int) - 1, 4⟩ : Door).toggle) = Door.init 4) :=
  ⟨by decide, door_round_trip 4 (by decide)⟩

/-- When no door sits ahead or the interact key is up, `Player.update` is
the tick increment followed by the IDLE/WALK machine, and the door map is
untouched. -/
theorem update_no_interact (w : World) (p : Player) (a : Option Dir) (s : Bool)
    (h : w.doors (p.x + (p.movemap p.direction).1, p.y + (p.movemap p.direction).2) = none
      ∨ s = false) :
    p.update w a s = (Player.step { p with tick := p.tick + 1 } w a, w.doors) := by
  unfold Player.update
  rcases h with h | h
  · simp [h]
  · subst h
    cases hw : w.doors (p.x + (p.movemap p.direction).1, p.y + (p.movemap p.direction).2) with
    | none => simp [hw]
    | some d => simp [hw]

/-- In IDLE, a requested direction different from the facing only turns
the player. -/
theorem step_idle_turn (p : Player) (w : World) (a : Option Dir) (d : Dir)
    (hst : p.state = PState.IDLE) (ha : a = some d) (hne : d ≠ p.direction) :
    p.step w a = { p with direction := d } := by
  unfold Player.step
  simp [hst, ha, hne]

/-- In IDLE, a requested direction equal to the facing with a free target
tile enters WALK; nothing else changes (in particular `anim_frame` keeps
its value). -/
theorem step_idle_walk (p : Player) (w : World) (a : Option Dir)
    (hst : p.state = PState.IDLE) (ha : a = some p.direction)
    (hc : w.will_collide (p.x + (p.movemap p.direction).1)
      (p.y + (p.movemap p.direction).2) = false) :
    p.step w a = { p with state := PState.WALK } := by
  unfold Player.step
  simp [hst, ha, hc]

/-- In IDLE, a requested direction equal to the facing with a colliding
target tile is a no-op. -/
theorem step_idle_blocked (p : Player) (w : World) (a : Option Dir)
    (hst : p.state = PState.IDLE) (ha : a = some p.direction)
    (hc : w.will_collide (p.x + (p.movemap p.direction).1)
      (p.y + (p.movemap p.direction).2) = true) :
    p.step w a = p := by
  unfold Player.step
  simp [hst, ha, hc]

/-- In WALK, an odd tick is a no-op. -/
theorem step_walk_noop (p : Player) (w : World) (a : Option Dir)
    (hst : p.state = PState.WALK) (hodd : p.tick % 2 = 1) :
    p.step w a = p := by
  unfold Player.step
  simp [hst, hodd]

/-- In WALK on an even tick, when the incremented frame is odd the frame
advances and the rect shifts a truncated half tile; tile position, state
and facing are unchanged. -/
theorem step_walk_mid (p : Player) (w : World) (a : Option Dir)
    (hst : p.state = PState.WALK) (heven : p.tick % 2 = 0)
    (hf : ((p.anim_frame + 1) % p.frames p.direction) % 2 = 1) :
    p.step w a =
      { p with anim_frame := (p.anim_frame + 1) % p.frames p.direction,
               rect_x := rectShift p.rect_x ((p.movemap p.direction).1 * w.tilesize),
               rect_y := rectShift p.rect_y ((p.movemap p.direction).2 * w.tilesize) } := by
  unfold Player.step
  simp [hst, heven, hf]

/-- In WALK on an even tick, when the incremented frame is even the tile
move is committed, the state returns to IDLE and the rect shifts a
truncated half tile. -/
theorem step_walk_commit (p : Player) (w : World) (a : Option Dir)
    (hst : p.state = PState.WALK) (heven : p.tick % 2 = 0)
    (hf : ((p.anim_frame + 1) % p.frames p.direction) % 2 = 0) :
    p.step w a =
      { p with anim_frame := (p.anim_frame + 1) % p.frames p.direction,
               x := p.x + (p.movemap p.direction).1,
               y := p.y + (p.movemap p.direction).2,
               state := PState.IDLE,
               rect_x := rectShift p.rect_x ((p.movemap p.direction).1 * w.tilesize),
               rect_y := rectShift p.rect_y ((p.movemap p.direction).2 * w.tilesize) } := by
  unfold Player.step
  simp [hst, heven, hf]

/-- C4 counterexample: an idle player with `anim_frame = 2` (left over
from a finished walk cycle), facing DOWN, requesting DOWN with a free
target tile, enters WALK but keeps `anim_frame = 2`: the claimed reset to
0 does not happen. -/
theorem walk_entry_reset_counterexample :
    p0.state = PState.IDLE ∧
      p0.direction = Dir.DOWN ∧
      p0.anim_frame = 2 ∧
      w0.will_collide (p0.x + (p0.movemap p0.direction).1)
        (p0.y + (p0.movemap p0.direction).2) = false ∧
      (p0.update w0 (some Dir.DOWN) false).1.state = PState.WALK ∧
      ¬(p0.update w0 (some Dir.DOWN) false).1.anim_frame = 0 := by
  decide

/-- C4 (amended): an idle player whose requested direction equals its
facing and whose target tile does not collide (and with no door
interaction this tick) transitions to WALK with `anim_frame` unchanged
(there is no reset to 0); only `state` and `tick` change. -/
theorem walk_entry_keeps_anim_frame (w : World) (p : Player) (a : Option Dir) (s : Bool)
    (hst : p.state = PState.IDLE) (ha : a = some p.direction)
    (hc : w.will_collide (p.x + (p.movemap p.direction).1)
      (p.y + (p.movemap p.direction).2) = false)
    (hni : w.doors (p.x + (p.movemap p.direction).1, p.y + (p.movemap p.direction).2) = none
      ∨ s = false) :
    (p.update w a s).1 = { p with state := PState.WALK, tick := p.tick + 1 } := by
  rw [update_no_interact w p a s hni]
  exact step_idle_walk { p with tick := p.tick + 1 } w a hst ha hc

/-- Witness for the amended C4 at a concrete input. -/
theorem walk_entry_keeps_anim_frame_witness :
    (p0.update w0 (some Dir.DOWN) false).1
      = { p0 with state := PState.WALK, tick := p0.tick + 1 } :=
  walk_entry_keeps_anim_frame w0 p0 (some Dir.DOWN) false rfl rfl (by decide) (Or.inl rfl)

/-- C5: when a door sits in the forward tile and the interact key is down,
the tick toggles that door (CLOSED becomes OPENING), leaves every other
door map entry alone, and skips all further processing: only the player's
tick counter changes, whatever direction was requested. -/
theorem interact_toggles_and_skips (w : World) (p : Player) (a : Option Dir) (d : Door)
    (hd : w.doors (p.x + (p.movemap p.direction).1, p.y + (p.movemap p.direction).2)
      = some d) :
    (p.update w a true).1 = { p with tick := p.tick + 1 } ∧
      (p.update w a true).2
          (p.x + (p.movemap p.direction).1, p.y + (p.movemap p.direction).2)
        = some d.toggle ∧
      (∀ k, k ≠ (p.x + (p.movemap p.direction).1, p.y + (p.movemap p.direction).2) →
        (p.update w a true).2 k = w.doors k) ∧
      (d.state = DoorState.CLOSED → d.toggle.state = DoorState.OPENING) := by
  unfold Player.update
  simp only [hd]
  refine ⟨rfl, by simp, ?_, ?_⟩
  · intro k hk
    simp [hk]
  · intro hc
    simp [Door.toggle, Door.open_door, hc]

/-- Witness for C5: the player at (0, 0) facing DOWN with a CLOSED door at
(0, 1), interact key down. -/
theorem interact_toggles_and_skips_witness :
    (p0.update w0d (some Dir.DOWN) true).1 = { p0 with tick := p0.tick + 1 } ∧
      (p0.update w0d (some Dir.DOWN) true).2
          (p0.x + (p0.movemap p0.direction).1, p0.y + (p0.movemap p0.direction).2)
        = some (Door.init 4).toggle ∧
      (∀ k, k ≠ (p0.x + (p0.movemap p0.direction).1, p0.y + (p0.movemap p0.direction).2) →
        (p0.update w0d (some Dir.DOWN) true).2 k = w0d.doors k) ∧
      ((Door.init 4).state = DoorState.CLOSED →
        (Door.init 4).toggle.state = DoorState.OPENING) :=
  interact_toggles_and_skips w0d p0 (some Dir.DOWN) (Door.init 4) (by decide)

/-- C6: an idle player given a non-null requested direction different
from its facing (with no door interaction this tick) only turns: the
facing becomes the requested direction, the tick advances, and the tile
position, state, animation frame and rect are unchanged; the world's
obstacles are arbitrary, no collision check gates the turn. -/
theorem turn_in_place (w : World) (p : Player) (a : Option Dir) (s : Bool) (d : Dir)
    (hst : p.state = PState.IDLE) (ha : a = some d) (hne : d ≠ p.direction)
    (hni : w.doors (p.x + (p.movemap p.direction).1, p.y + (p.movemap p.direction).2) = none
      ∨ s = false) :
    (p.update w a s).1 = { p with direction := d, tick := p.tick + 1 } ∧
      (p.update w a s).1.state = PState.IDLE := by
  have h := update_no_interact w p a s hni
  constructor
  · rw [h]
    exact step_idle_turn { p with tick := p.tick + 1 } w a d hst ha hne
  · rw [h]
    rw [step_idle_turn { p with tick := p.tick + 1 } w a d hst ha hne]
    exact hst

/-- Witness for C6: the idle player facing DOWN, requesting UP, in a world
whose every object tile is occupied: the turn still happens. -/
theorem turn_in_place_witness :
    ((p0.update w0b (some Dir.UP) false).1
        = { p0 with direction := Dir.UP, tick := p0.tick + 1 } ∧
      (p0.update w0b (some Dir.UP) false).1.state = PState.IDLE) :=
  turn_in_place w0b p0 (some Dir.UP) false Dir.UP rfl rfl (by decide) (Or.inl rfl)

/-- One update of a walking player on an ineligible (odd) tick: only the
tick counter advances. -/
theorem update_walk_noop (w : World) (q : Player) (a : Option Dir) (s : Bool)
    (hst : q.state = PState.WALK) (hodd : (q.tick + 1) % 2 = 1)
    (hni : w.doors (q.x + (q.movemap q.direction).1, q.y + (q.movemap q.direction).2) = none
      ∨ s = false) :
    (q.update w a s).1 = { q with tick := q.tick + 1 } := by
  rw [update_no_interact w q a s hni]
  exact step_walk_noop { q with tick := q.tick + 1 } w a hst hodd

/-- One update of a walking player on an eligible tick whose incremented
frame is odd: frame advances, rect shifts a truncated half tile, no
commit. -/
theorem update_walk_mid (w : World) (q : Player) (a : Option Dir) (s : Bool)
    (hst : q.state = PState.WALK) (hpar : (q.tick + 1) % 2 = 0)
    (hf : ((q.anim_frame + 1) % q.frames q.direction) % 2 = 1)
    (hni : w.doors (q.x + (q.movemap q.direction).1, q.y + (q.movemap q.direction).2) = none
      ∨ s = false) :
    (q.update w a s).1 =
      { q with tick := q.tick + 1,
               anim_frame := (q.anim_frame + 1) % q.frames q.direction,
               rect_x := rectShift q.rect_x ((q.movemap q.direction).1 * w.tilesize),
               rect_y := rectShift q.rect_y ((q.movemap q.direction).2 * w.tilesize) } := by
  rw [update_no_interact w q a s hni]
  rw [step_walk_mid { q with tick := q.tick + 1 } w a hst hpar hf]
  rfl

/-- One update of a walking player on an eligible tick whose incremented
frame is even: the tile move is committed and the state returns to IDLE. -/
theorem update_walk_commit (w : World) (q : Player) (a : Option Dir) (s : Bool)
    (hst : q.state = PState.WALK) (hpar : (q.tick + 1) % 2 = 0)
    (hf : ((q.anim_frame + 1) % q.frames q.direction) % 2 = 0)
    (hni : w.doors (q.x + (q.movemap q.direction).1, q.y + (q.movemap q.direction).2) = none
      ∨ s = false) :
    (q.update w a s).1 =
      { q with tick := q.tick + 1,
               anim_frame := (q.anim_frame + 1) % q.frames q.direction,
               x := q.x + (q.movemap q.direction).1,
               y := q.y + (q.movemap q.direction).2,
               state := PState.IDLE,
               rect_x := rectShift q.rect_x ((q.movemap q.direction).1 * w.tilesize),
               rect_y := rectShift q.rect_y ((q.movemap q.direction).2 * w.tilesize) } := by
  rw [update_no_interact w q a s hni]
  rw [step_walk_commit { q with tick := q.tick + 1 } w a hst hpar hf]
  rfl

/-- Shifting by a whole number of half-tiles that is even (an even `d`)
is exact: no truncation happens. -/
theorem rectShift_two_mul (r e : Int) : rectShift r (2 * e) = r + e := by
  unfold rectShift pyInt
  have hq : ((r : Rat) + ((2 * e : Int) : Rat) / 2) = ((r + e : Int) : Rat) := by
    push_cast
    ring
  rw [hq]
  split
  · exact Int.ceil_intCast (r + e)
  · exact Int.floor_intCast (r + e)

/-- Two truncated half-tile shifts by an even pixel distance `d` sum to
exactly `d`. -/
theorem rectShift_twice_even (r d : Int) (hd : d % 2 = 0) :
    rectShift (rectShift r d) d = r + d := by
  obtain ⟨e, rfl⟩ : ∃ e, d = 2 * e := ⟨d / 2, by omega⟩
  rw [rectShift_two_mul, rectShift_two_mul]
  ring

/-- A walk starting with an even `anim_frame`, taken up just before an
eligible (even) tick, completes in exactly three updates: progress, no-op,
commit.  The tile position advances by the movemap offset, the state
returns to IDLE, and the rect has received two truncated half-tile
shifts. -/
theorem walk_three_ticks (w : World) (p : Player) (a : Option Dir) (s : Bool)
    (hst : p.state = PState.WALK)
    (hae : p.anim_frame % 2 = 0)
    (hfr : p.frames p.direction = 4)
    (hpar : (p.tick + 1) % 2 = 0)
    (hni : w.doors (p.x + (p.movemap p.direction).1, p.y + (p.movemap p.direction).2) = none
      ∨ s = false) :
    (fun q => (q.update w a s).1)^[3] p =
      { p with tick := p.tick + 3,
               anim_frame := (p.anim_frame + 2) % 4,
               x := p.x + (p.movemap p.direction).1,
               y := p.y + (p.movemap p.direction).2,
               state := PState.IDLE,
               rect_x := rectShift
                 (rectShift p.rect_x ((p.movemap p.direction).1 * w.tilesize))
                 ((p.movemap p.direction).1 * w.tilesize),
               rect_y := rectShift
                 (rectShift p.rect_y ((p.movemap p.direction).2 * w.tilesize))
                 ((p.movemap p.direction).2 * w.tilesize) } := by
  have hodd1 : ((p.anim_frame + 1) % p.frames p.direction) % 2 = 1 := by
    rw [hfr]; omega
  have hf3 : (((p.anim_frame + 1) % p.frames p.direction + 1) % p.frames p.direction) % 2
      = 0 := by
    rw [hfr]; omega
  show (fun q => (Player.update q w a s).1)
      ((fun q => (Player.update q w a s).1)
        ((fun q => (Player.update q w a s).1) p)) = _
  simp only []
  rw [update_walk_mid w p a s hst hpar hodd1 hni]
  rw [update_walk_noop w
    { p with tick := p.tick + 1,
             anim_frame := (p.anim_frame + 1) % p.frames p.direction,
             rect_x := rectShift p.rect_x ((p.movemap p.direction).1 * w.tilesize),
             rect_y := rectShift p.rect_y ((p.movemap p.direction).2 * w.tilesize) }
    a s (by exact hst) (by show (p.tick + 1 + 1) % 2 = 1; omega) (by exact hni)]
  rw [update_walk_commit w
    { p with tick := p.tick + 1 + 1,
             anim_frame := (p.anim_frame + 1) % p.frames p.direction,
             rect_x := rectShift p.rect_x ((p.movemap p.direction).1 * w.tilesize),
             rect_y := rectShift p.rect_y ((p.movemap p.direction).2 * w.tilesize) }
    a s (by exact hst) (by show (p.tick + 1 + 1 + 1) % 2 = 0; omega) (by exact hf3)
    (by exact hni)]
  ext
  · rfl
  · rfl
  · rfl
  · rfl
  · show ((p.anim_frame + 1) % p.frames p.direction + 1) % p.frames p.direction
      = (p.anim_frame + 2) % 4
    rw [hfr]; omega
  · rfl
  · show p.tick + 1 + 1 + 1 = p.tick + 3
    omega
  · rfl
  · rfl
  · rfl

/-- C3 counterexample: in a world with the odd tile size 7, the walking
player `pw` completes its walk (state back to IDLE, tile advanced one unit
DOWN), but the rect has moved 6 pixels, not the full tile of 7: each
half-tile shift of 3.5 pixels is truncated by the integer rect, leaving a
one-pixel residual offset. -/
theorem walk_residual_counterexample :
    pw.state = PState.WALK ∧
      pw.anim_frame % 2 = 0 ∧
      ((fun q => (q.update wodd none false).1)^[3] pw).state = PState.IDLE ∧
      ((fun q => (q.update wodd none false).1)^[3] pw).y = pw.y + 1 ∧
      ((fun q => (q.update wodd none false).1)^[3] pw).rect_y = 6 ∧
      pw.rect_y + 1 * wodd.tilesize = 7 ∧
      (6 : Int) ≠ 7 := by
  have h := walk_three_ticks wodd pw none false rfl rfl rfl (by decide) (Or.inl rfl)
  rw [h]
  have c1 : rectShift 0 7 = 3 := by
    unfold rectShift pyInt
    rw [if_neg (by norm_num)]
    have hq : ((0 : Int) : Rat) + ((7 : Int) : Rat) / 2 = 7 / 2 := by norm_num
    rw [hq, Int.floor_eq_iff]
    constructor <;> norm_num
  have c2 : rectShift 3 7 = 6 := by
    unfold rectShift pyInt
    rw [if_neg (by norm_num)]
    have hq : ((3 : Int) : Rat) + ((7 : Int) : Rat) / 2 = 13 / 2 := by norm_num
    rw [hq, Int.floor_eq_iff]
    constructor <;> norm_num
  have hm : (pw.movemap pw.direction).2 * wodd.tilesize = 7 := by decide
  refine ⟨rfl, rfl, rfl, by decide, ?_, by decide, by decide⟩
  show rectShift (rectShift pw.rect_y ((pw.movemap pw.direction).2 * wodd.tilesize))
    ((pw.movemap pw.direction).2 * wodd.tilesize) = 6
  rw [hm, show pw.rect_y = 0 from rfl, c1, c2]

/-- C3 (amended): for a walking actor (4 sprite frames per direction,
source speed 1, no door interaction, even tile size): the movemap offset
is the unit vector of the facing; odd ticks are no-ops apart from the tick
counter; starting from an even `anim_frame`, three updates (when the next
tick is even) or four updates (when it is odd) complete the walk: the
state returns to IDLE, the tile position advances by exactly the unit
offset, and the rect has moved by exactly one whole tile — the integer
rect truncates each half-tile shift toward zero, so the two shifts sum to
a full tile exactly when the tile size is even (an odd tile size leaves a
one-pixel residual, see the counterexample). -/
theorem walk_cadence (w : World) (p : Player) (a : Option Dir) (s : Bool)
    (hst : p.state = PState.WALK)
    (hae : p.anim_frame % 2 = 0)
    (hfr : p.frames p.direction = 4)
    (hsp : p.speed = 1)
    (hts : w.tilesize % 2 = 0)
    (hni : w.doors (p.x + (p.movemap p.direction).1, p.y + (p.movemap p.direction).2) = none
      ∨ s = false) :
    p.movemap p.direction = unitVector p.direction ∧
      ((p.tick + 1) % 2 = 1 →
        (p.update w a s).1 = { p with tick := p.tick + 1 }) ∧
      ((p.tick + 1) % 2 = 0 →
        (fun q => (q.update w a s).1)^[3] p =
          { p with tick := p.tick + 3,
                   anim_frame := (p.anim_frame + 2) % 4,
                   x := p.x + (p.movemap p.direction).1,
                   y := p.y + (p.movemap p.direction).2,
                   state := PState.IDLE,
                   rect_x := p.rect_x + (p.movemap p.direction).1 * w.tilesize,
                   rect_y := p.rect_y + (p.movemap p.direction).2 * w.tilesize }) ∧
      ((p.tick + 1) % 2 = 1 →
        (fun q => (q.update w a s).1)^[4] p =
          { p with tick := p.tick + 4,
                   anim_frame := (p.anim_frame + 2) % 4,
                   x := p.x + (p.movemap p.direction).1,
                   y := p.y + (p.movemap p.direction).2,
                   state := PState.IDLE,
                   rect_x := p.rect_x + (p.movemap p.direction).1 * w.tilesize,
                   rect_y := p.rect_y + (p.movemap p.direction).2 * w.tilesize }) := by
  have hx2 : ((p.movemap p.direction).1 * w.tilesize) % 2 = 0 := by
    rw [Int.mul_emod, hts]
    simp
  have hy2 : ((p.movemap p.direction).2 * w.tilesize) % 2 = 0 := by
    rw [Int.mul_emod, hts]
    simp
  refine ⟨?_, ?_, ?_, ?_⟩
  · cases hd : p.direction <;> simp [Player.movemap, unitVector, hsp]
  · intro hodd
    exact update_walk_noop w p a s hst hodd hni
  · intro hev
    rw [walk_three_ticks w p a s hst hae hfr hev hni]
    ext
    · rfl
    · rfl
    · rfl
    · rfl
    · rfl
    · rfl
    · rfl
    · show rectShift (rectShift p.rect_x ((p.movemap p.direction).1 * w.tilesize))
          ((p.movemap p.direction).1 * w.tilesize)
        = p.rect_x + (p.movemap p.direction).1 * w.tilesize
      exact rectShift_twice_even _ _ hx2
    · show rectShift (rectShift p.rect_y ((p.movemap p.direction).2 * w.tilesize))
          ((p.movemap p.direction).2 * w.tilesize)
        = p.rect_y + (p.movemap p.direction).2 * w.tilesize
      exact rectShift_twice_even _ _ hy2
    · rfl
  · intro hodd
    show (fun q => (Player.update q w a s).1)^[3]
      ((fun q => (Player.update q w a s).1) p) = _
    have e0 : (fun q => (Player.update q w a s).1) p = { p with tick := p.tick + 1 } := by
      simp only []
      exact update_walk_noop w p a s hst hodd hni
    rw [e0]
    rw [walk_three_ticks w { p with tick := p.tick + 1 } a s (by exact hst)
      (by exact hae) (by exact hfr) (by show (p.tick + 1 + 1) % 2 = 0; omega) (by exact hni)]
    ext
    · rfl
    · rfl
    · rfl
    · rfl
    · rfl
    · rfl
    · show p.tick + 1 + 3 = p.tick + 4
      omega
    · show rectShift (rectShift p.rect_x ((p.movemap p.direction).1 * w.tilesize))
          ((p.movemap p.direction).1 * w.tilesize)
        = p.rect_x + (p.movemap p.direction).1 * w.tilesize
      exact rectShift_twice_even _ _ hx2
    · show rectShift (rectShift p.rect_y ((p.movemap p.direction).2 * w.tilesize))
          ((p.movemap p.direction).2 * w.tilesize)
        = p.rect_y + (p.movemap p.direction).2 * w.tilesize
      exact rectShift_twice_even _ _ hy2
    · rfl

/-- Witness for the amended C3: the walking player `pw` (tick 1, so the
next tick is even) in the empty world with the even tile size 16 completes
its walk in three updates with a full-tile rect advance. -/
theorem walk_cadence_witness :
    pw.movemap pw.direction = unitVector pw.direction ∧
      ((pw.tick + 1) % 2 = 1 →
        (pw.update w0 none false).1 = { pw with tick := pw.tick + 1 }) ∧
      ((pw.tick + 1) % 2 = 0 →
        (fun q => (q.update w0 none false).1)^[3] pw =
          { pw with tick := pw.tick + 3,
                    anim_frame := (pw.anim_frame + 2) % 4,
                    x := pw.x + (pw.movemap pw.direction).1,
                    y := pw.y + (pw.movemap pw.direction).2,
                    state := PState.IDLE,
                    rect_x := pw.rect_x + (pw.movemap pw.direction).1 * w0.tilesize,
                    rect_y := pw.rect_y + (pw.movemap pw.direction).2 * w0.tilesize }) ∧
      ((pw.tick + 1) % 2 = 1 →
        (fun q => (q.update w0 none false).1)^[4] pw =
          { pw with tick := pw.tick + 4,
                    anim_frame := (pw.anim_frame + 2) % 4,
                    x := pw.x + (pw.movemap pw.direction).1,
                    y := pw.y + (pw.movemap pw.direction).2,
                    state := PState.IDLE,
                    rect_x := pw.rect_x + (pw.movemap pw.direction).1 * w0.tilesize,
                    rect_y := pw.rect_y + (pw.movemap pw.direction).2 * w0.tilesize }) :=
  walk_cadence w0 pw none false rfl rfl rfl rfl (by decide) (Or.inl rfl)

/-- C10: one update of a walking actor (no door interaction firing) gives
an actor result independent of the requested direction and of the world's
object layer and door data: two runs from the same actor state over worlds
that agree on tile size, with arbitrary requested directions, produce the
same actor, and the facing never changes mid-walk.  In particular the
in-flight move is never re-checked against `will_collide`. -/
theorem walk_input_independent (w1 w2 : World) (p : Player) (a1 a2 : Option Dir)
    (s1 s2 : Bool)
    (hst : p.state = PState.WALK)
    (ht : w1.tilesize = w2.tilesize)
    (h1 : w1.doors (p.x + (p.movemap p.direction).1, p.y + (p.movemap p.direction).2) = none
      ∨ s1 = false)
    (h2 : w2.doors (p.x + (p.movemap p.direction).1, p.y + (p.movemap p.direction).2) = none
      ∨ s2 = false) :
    (p.update w1 a1 s1).1 = (p.update w2 a2 s2).1 ∧
      (p.update w1 a1 s1).1.direction = p.direction := by
  rcases Nat.even_or_odd (p.tick + 1) with he | ho
  · have hev : (p.tick + 1) % 2 = 0 := Nat.even_iff.mp he
    rcases Nat.even_or_odd ((p.anim_frame + 1) % p.frames p.direction) with hfe | hfo
    · have hf : ((p.anim_frame + 1) % p.frames p.direction) % 2 = 0 := Nat.even_iff.mp hfe
      have c1 := update_walk_commit w1 p a1 s1 hst hev hf h1
      have c2 := update_walk_commit w2 p a2 s2 hst hev hf h2
      refine ⟨?_, ?_⟩
      · rw [c1, c2, ht]
      · rw [c1]
    · have hf : ((p.anim_frame + 1) % p.frames p.direction) % 2 = 1 := Nat.odd_iff.mp hfo
      have c1 := update_walk_mid w1 p a1 s1 hst hev hf h1
      have c2 := update_walk_mid w2 p a2 s2 hst hev hf h2
      refine ⟨?_, ?_⟩
      · rw [c1, c2, ht]
      · rw [c1]
  · have hodd : (p.tick + 1) % 2 = 1 := Nat.odd_iff.mp ho
    have c1 := update_walk_noop w1 p a1 s1 hst hodd h1
    have c2 := update_walk_noop w2 p a2 s2 hst hodd h2
    refine ⟨?_, ?_⟩
    · rw [c1, c2]
    · rw [c1]

/-- Witness for C10: the walking player over the empty world with interact
held and UP requested, versus the fully blocked world with no input. -/
theorem walk_input_independent_witness :
    ((pw.update w0 (some Dir.UP) true).1 = (pw.update w0b none false).1 ∧
      (pw.update w0 (some Dir.UP) true).1.direction = pw.direction) :=
  walk_input_independent w0 w0b pw (some Dir.UP) none true false rfl rfl
    (Or.inl rfl) (Or.inl rfl)
